import Mathlib

/-!
Verification of the local-socket vchan transport backend (vchan/socket.c).

The development shallowly embeds the code: each system-call outcome that the C
code branches on (poll, read, write on the socket, the one-byte write to the
peer-wake pipe) is an explicit input of the embedded step functions, and the
lock / unlock / poll / io calls the code performs are recorded in an event
trace, so that lock discipline and call ordering are provable facts about the
embedding.

The ring-buffer operations (ring_filled, ring_available, ring_advance_head,
ring_advance_tail) live outside the given source file; they are modelled from
the specification's Ring Buffer contract (fixed capacity, contiguous-run
queries bounded by the wrap boundary, cursor advances).
-/

namespace VchanSocket

/-- Errno values that vchan/socket.c distinguishes; every other errno is
collapsed into the catch-all constructor. -/
inductive Errno
  | EAGAIN
  | EWOULDBLOCK
  | ECONNRESET
  | EPIPE
  | EINTR
  | ECONNREFUSED
  | ENOENT
  | other
  deriving DecidableEq

/-- Ring buffer state. Modelled from the spec: the Ring Buffer contract of §3
(the ring sources are not part of the given file). The buffer has fixed
capacity `cap`, a read cursor `head`, and `used` logical bytes stored; the
write cursor is derived. -/
structure Ring where
  cap : Nat
  head : Nat
  used : Nat
  deriving DecidableEq

/-- Modelled from the spec: index of the write cursor (next writable byte). -/
def ring_tail_idx (r : Ring) : Nat := (r.head + r.used) % r.cap

/-- Modelled from the spec: bytes readable up to the next wrap boundary
(a contiguous run, not necessarily the full logical used space). -/
def ring_filled (r : Ring) : Nat := min r.used (r.cap - r.head)

/-- Modelled from the spec: bytes writable up to the next wrap boundary
(a contiguous run, not necessarily the full logical free space). -/
def ring_available (r : Ring) : Nat :=
  min (r.cap - r.used) (r.cap - ring_tail_idx r)

/-- Modelled from the spec: commit `n` consumed bytes, wrapping the read
cursor at buffer end. -/
def ring_advance_head (r : Ring) (n : Nat) : Ring :=
  { cap := r.cap, head := (r.head + n) % r.cap, used := r.used - n }

/-- Modelled from the spec: commit `n` produced bytes at the write cursor. -/
def ring_advance_tail (r : Ring) (n : Nat) : Ring :=
  { cap := r.cap, head := r.head, used := r.used + n }

/-- Connection states of the channel state machine (libvchan.h names). -/
inductive VState
  | WAITING
  | CONNECTED
  | DISCONNECTED
  deriving DecidableEq

/-- Observable actions of the background thread, in program order: mutex
operations, the blocking poll, the socket io calls with their requested byte
counts, the one-byte peer-wake write, and function return. -/
inductive Ev
  | lock
  | unlock
  | pollWait
  | readCall (n : Nat)
  | writeCall (n : Nat)
  | wakeWrite
  | ret
  deriving DecidableEq

/-- Result of a non-blocking read or write system call: a byte count, or a
failure carrying errno. -/
inductive SysRes
  | ok (n : Nat)
  | err (e : Errno)
  deriving DecidableEq

/-- Outcome of the errno dispatch that comm_loop performs on one socket io
call: either advance the ring by `count` bytes, possibly setting the done
flag (in both phases the code additionally sets notify exactly when the
committed count is positive), or return from the loop (fatal). -/
inductive PhaseOut
  | advance (count : Nat) (setDone : Bool)
  | fatal
  deriving DecidableEq

/-- Dispatch on the result of the socket read, translated from
src/vchan/socket.c lines 214-228: count 0 means peer closed (done);
EAGAIN/EWOULDBLOCK is treated as 0 bytes; ECONNRESET is treated as 0 bytes
and done; any other errno is fatal. -/
def read_classify : SysRes → PhaseOut
  | SysRes.ok n => if n = 0 then PhaseOut.advance 0 true else PhaseOut.advance n false
  | SysRes.err e =>
    if e = Errno.EAGAIN ∨ e = Errno.EWOULDBLOCK then PhaseOut.advance 0 false
    else if e = Errno.ECONNRESET then PhaseOut.advance 0 true
    else PhaseOut.fatal

/-- Dispatch on the result of the socket write, translated from
src/vchan/socket.c lines 239-251: EAGAIN/EWOULDBLOCK is treated as 0 bytes;
EPIPE is treated as 0 bytes and done; any other errno is fatal. -/
def write_classify : SysRes → PhaseOut
  | SysRes.ok n => PhaseOut.advance n false
  | SysRes.err e =>
    if e = Errno.EAGAIN ∨ e = Errno.EWOULDBLOCK then PhaseOut.advance 0 false
    else if e = Errno.EPIPE then PhaseOut.advance 0 true
    else PhaseOut.fatal

/-- Environment of one comm_loop iteration: the outcomes of the system calls
the iteration may perform, and the readiness bits poll reported. -/
structure CommEnv where
  poll_fail : Bool
  poll_errno : Errno
  revents_in : Bool
  revents_out : Bool
  revents_user : Bool
  readRes : SysRes
  writeRes : SysRes
  wakeRes : Int
  deriving DecidableEq

/-- Observable result of one comm_loop iteration: final ring states, the done
local, whether the function returned (fatal), ghost flags recording what the
io dispatch decided, the computed poll interest bits, which io calls were
issued with which requested sizes, the committed byte counts, the number of
peer-wake bytes written, the shutdown flag as read under the lock, and the
event trace of the iteration. -/
structure StepResult where
  read_ring : Ring
  write_ring : Ring
  done : Bool
  fatal : Bool
  doneFromDispatch : Bool
  notify : Bool
  eventsIn : Bool
  eventsOut : Bool
  readCalled : Bool
  writeCalled : Bool
  readReq : Nat
  writeReq : Nat
  readCommit : Nat
  writeCommit : Nat
  wakeWrites : Nat
  shutdownObserved : Bool
  trace : List Ev
  deriving DecidableEq

/-- Tail of one comm_loop iteration after the write phase, translated from
src/vchan/socket.c lines 256-271: if notify is set, write one byte to the
peer-wake pipe and return (after unlocking) unless the write returned 1; then
set done when shutdown was requested and the outbound ring is drained;
finally unlock. -/
def comm_loop_step_finish (rr2 wr2 : Ring) (shutdown : Bool) (wakeRes : Int)
    (eIn eOut doneDsp notify readCalled writeCalled : Bool)
    (readReq readCommit writeReq writeCommit : Nat) (tr : List Ev) : StepResult :=
  if notify then
    if wakeRes ≠ 1 then
      { read_ring := rr2, write_ring := wr2, done := doneDsp, fatal := true,
        doneFromDispatch := doneDsp, notify := notify, eventsIn := eIn, eventsOut := eOut,
        readCalled := readCalled, writeCalled := writeCalled,
        readReq := readReq, writeReq := writeReq,
        readCommit := readCommit, writeCommit := writeCommit,
        wakeWrites := 1, shutdownObserved := shutdown,
        trace := tr ++ [Ev.wakeWrite, Ev.unlock, Ev.ret] }
    else
      { read_ring := rr2, write_ring := wr2,
        done := doneDsp || (shutdown && decide (ring_filled wr2 = 0)), fatal := false,
        doneFromDispatch := doneDsp, notify := notify, eventsIn := eIn, eventsOut := eOut,
        readCalled := readCalled, writeCalled := writeCalled,
        readReq := readReq, writeReq := writeReq,
        readCommit := readCommit, writeCommit := writeCommit,
        wakeWrites := 1, shutdownObserved := shutdown,
        trace := tr ++ [Ev.wakeWrite, Ev.unlock] }
  else
    { read_ring := rr2, write_ring := wr2,
      done := doneDsp || (shutdown && decide (ring_filled wr2 = 0)), fatal := false,
      doneFromDispatch := doneDsp, notify := notify, eventsIn := eIn, eventsOut := eOut,
      readCalled := readCalled, writeCalled := writeCalled,
      readReq := readReq, writeReq := writeReq,
      readCommit := readCommit, writeCommit := writeCommit,
      wakeWrites := 0, shutdownObserved := shutdown,
      trace := tr ++ [Ev.unlock] }

/-- Write phase of one comm_loop iteration, translated from
src/vchan/socket.c lines 233-254: when the socket reported writable and the
outbound ring has a positive contiguous run, write that run; dispatch on the
result; on fatal errno unlock and return, otherwise advance the ring head by
the committed count and continue. -/
def comm_loop_step_write (rr2 wr : Ring) (shutdown : Bool) (env : CommEnv)
    (eIn eOut doneR notifyR readCalled : Bool) (readReq readCommit : Nat)
    (tr : List Ev) : StepResult :=
  if env.revents_out && decide (0 < ring_filled wr) then
    match write_classify env.writeRes with
    | PhaseOut.fatal =>
      { read_ring := rr2, write_ring := wr, done := doneR, fatal := true,
        doneFromDispatch := doneR, notify := notifyR, eventsIn := eIn, eventsOut := eOut,
        readCalled := readCalled, writeCalled := true,
        readReq := readReq, writeReq := ring_filled wr,
        readCommit := readCommit, writeCommit := 0,
        wakeWrites := 0, shutdownObserved := shutdown,
        trace := tr ++ [Ev.writeCall (ring_filled wr), Ev.unlock, Ev.ret] }
    | PhaseOut.advance c d =>
      comm_loop_step_finish rr2 (ring_advance_head wr c) shutdown env.wakeRes
        eIn eOut (doneR || d) (notifyR || decide (0 < c)) readCalled true
        readReq readCommit (ring_filled wr) c
        (tr ++ [Ev.writeCall (ring_filled wr)])
  else
    comm_loop_step_finish rr2 wr shutdown env.wakeRes
      eIn eOut doneR notifyR readCalled false readReq readCommit 0 0 tr

/-- One iteration of comm_loop, translated from src/vchan/socket.c lines
185-271: under the lock compute the poll interest bits from ring occupancy,
unlock, poll (a poll failure other than EINTR returns); re-lock, read the
shutdown flag, run the read phase (lines 209-231), the write phase, the
notify write and the shutdown-drain check, then unlock. The iteration is
entered with the done local false (the loop guard). -/
def comm_loop_step (rr wr : Ring) (ctrlShutdown : Bool) (env : CommEnv) : StepResult :=
  let eIn := decide (0 < ring_available rr)
  let eOut := decide (0 < ring_filled wr)
  if env.poll_fail ∧ env.poll_errno ≠ Errno.EINTR then
    { read_ring := rr, write_ring := wr, done := false, fatal := true,
      doneFromDispatch := false, notify := false, eventsIn := eIn, eventsOut := eOut,
      readCalled := false, writeCalled := false,
      readReq := 0, writeReq := 0, readCommit := 0, writeCommit := 0,
      wakeWrites := 0, shutdownObserved := false,
      trace := [Ev.lock, Ev.unlock, Ev.pollWait, Ev.ret] }
  else
    if env.revents_in && decide (0 < ring_available rr) then
      match read_classify env.readRes with
      | PhaseOut.fatal =>
        { read_ring := rr, write_ring := wr, done := false, fatal := true,
          doneFromDispatch := false, notify := false, eventsIn := eIn, eventsOut := eOut,
          readCalled := true, writeCalled := false,
          readReq := ring_available rr, writeReq := 0,
          readCommit := 0, writeCommit := 0,
          wakeWrites := 0, shutdownObserved := ctrlShutdown,
          trace := [Ev.lock, Ev.unlock, Ev.pollWait, Ev.lock,
                    Ev.readCall (ring_available rr), Ev.unlock, Ev.ret] }
      | PhaseOut.advance c d =>
        comm_loop_step_write (ring_advance_tail rr c) wr ctrlShutdown env
          eIn eOut d (decide (0 < c)) true (ring_available rr) c
          [Ev.lock, Ev.unlock, Ev.pollWait, Ev.lock, Ev.readCall (ring_available rr)]
    else
      comm_loop_step_write rr wr ctrlShutdown env
        eIn eOut false false false 0 0
        [Ev.lock, Ev.unlock, Ev.pollWait, Ev.lock]

/-- Lock-balance check over an event trace: starting from depth `d`, every
unlock must find the mutex held, and the trace must end at depth 0. -/
def balancedFrom : Nat → List Ev → Bool
  | d, [] => d == 0
  | d, Ev.lock :: rest => balancedFrom (d + 1) rest
  | d, Ev.unlock :: rest => (d != 0) && balancedFrom (d - 1) rest
  | d, Ev.pollWait :: rest => balancedFrom d rest
  | d, Ev.readCall _ :: rest => balancedFrom d rest
  | d, Ev.writeCall _ :: rest => balancedFrom d rest
  | d, Ev.wakeWrite :: rest => balancedFrom d rest
  | d, Ev.ret :: rest => balancedFrom d rest

/-- Check that every blocking poll in the trace happens with the mutex
released (lock depth 0 at the moment of the poll). -/
def pollAtZeroFrom : Nat → List Ev → Bool
  | _, [] => true
  | d, Ev.lock :: rest => pollAtZeroFrom (d + 1) rest
  | d, Ev.unlock :: rest => pollAtZeroFrom (d - 1) rest
  | d, Ev.pollWait :: rest => (d == 0) && pollAtZeroFrom d rest
  | d, Ev.readCall _ :: rest => pollAtZeroFrom d rest
  | d, Ev.writeCall _ :: rest => pollAtZeroFrom d rest
  | d, Ev.wakeWrite :: rest => pollAtZeroFrom d rest
  | d, Ev.ret :: rest => pollAtZeroFrom d rest

/-- Check that every function return in the trace happens with the mutex
released (lock depth 0 at the moment of the return). -/
def retAtZeroFrom : Nat → List Ev → Bool
  | _, [] => true
  | d, Ev.lock :: rest => retAtZeroFrom (d + 1) rest
  | d, Ev.unlock :: rest => retAtZeroFrom (d - 1) rest
  | d, Ev.pollWait :: rest => retAtZeroFrom d rest
  | d, Ev.readCall _ :: rest => retAtZeroFrom d rest
  | d, Ev.writeCall _ :: rest => retAtZeroFrom d rest
  | d, Ev.wakeWrite :: rest => retAtZeroFrom d rest
  | d, Ev.ret :: rest => (d == 0) && retAtZeroFrom d rest

/-- Retry delay constant, translated from src/vchan/socket.c line 35. -/
def CONNECT_DELAY_MS : Nat := 100

/-- Seconds field of the timespec passed to nanosleep between connect
attempts, translated from src/vchan/socket.c line 108. -/
def connect_delay_tv_sec : Nat := 0

/-- Nanoseconds field of the timespec passed to nanosleep between connect
attempts, translated from src/vchan/socket.c line 109. -/
def connect_delay_tv_nsec : Nat := CONNECT_DELAY_MS * 1000

/-- Outcome of one connect attempt in libvchan__connect: a successful connect
(carrying whether the subsequent fcntl to non-blocking mode succeeds), or a
failure with errno. -/
inductive ConnectStep
  | ok (fcntlOk : Bool)
  | fail (e : Errno)
  deriving DecidableEq

/-- Final outcome of the libvchan__connect retry loop: a connected descriptor
(recording that it was switched to non-blocking mode), a fatal setup failure
(recording that the descriptor was closed), or still retrying after the
supplied attempts were exhausted. -/
inductive ConnectOut
  | fd (nonblocking : Bool)
  | setupError (fdClosed : Bool)
  | retrying
  deriving DecidableEq

/-- Retry loop of libvchan__connect, translated from src/vchan/socket.c lines
117-132, applied to a finite prefix of connect outcomes. A failing connect
with errno other than ECONNREFUSED or ENOENT closes the descriptor and fails;
a refused or not-yet-existing endpoint sleeps the connect delay and retries
(the second component counts these sleeps); a successful connect switches the
descriptor to non-blocking mode (failure of that switch closes the descriptor
and fails) and returns it. -/
def libvchan__connect_loop : List ConnectStep → ConnectOut × Nat
  | [] => (ConnectOut.retrying, 0)
  | ConnectStep.ok fcntlOk :: _ =>
    if fcntlOk then (ConnectOut.fd true, 0) else (ConnectOut.setupError true, 0)
  | ConnectStep.fail e :: rest =>
    if e ≠ Errno.ECONNREFUSED ∧ e ≠ Errno.ENOENT then (ConnectOut.setupError true, 0)
    else
      let p := libvchan__connect_loop rest
      (p.1, p.2 + 1)

/-- Inputs of one poll cycle of the run_server wait loop: whether poll failed
and with which errno, the value of the shared shutdown flag read under the
lock, and whether the listening descriptor reported an incoming connection. -/
structure ServerCycle where
  poll_fail : Bool
  poll_errno : Errno
  shutdown : Bool
  revents_in : Bool
  deriving DecidableEq

/-- Exit of the run_server wait loop, carrying the number of poll cycles
consumed: a fatal poll error (return), a requested shutdown (return), an
incoming connection (proceed to accept), or still waiting after the supplied
cycles were exhausted. -/
inductive WaitOut
  | pollError (cycles : Nat)
  | shutdownExit (cycles : Nat)
  | connected (cycles : Nat)
  | running (cycles : Nat)
  deriving DecidableEq

/-- Wait loop of run_server, translated from src/vchan/socket.c lines
139-153: each cycle polls the listening descriptor with a bounded timeout
(a poll failure other than EINTR returns), then reads the shutdown flag under
the lock and returns if it is set, then leaves the loop if the descriptor
reported an incoming connection. -/
def run_server_wait : List ServerCycle → WaitOut
  | [] => WaitOut.running 0
  | c :: rest =>
    if c.poll_fail ∧ c.poll_errno ≠ Errno.EINTR then WaitOut.pollError 1
    else if c.shutdown then WaitOut.shutdownExit 1
    else if c.revents_in then WaitOut.connected 1
    else
      match run_server_wait rest with
      | WaitOut.pollError n => WaitOut.pollError (n + 1)
      | WaitOut.shutdownExit n => WaitOut.shutdownExit (n + 1)
      | WaitOut.connected n => WaitOut.connected (n + 1)
      | WaitOut.running n => WaitOut.running (n + 1)

/-- Sequence of change_state calls run_server performs, translated from
src/vchan/socket.c lines 135-176: every early return (poll error, requested
shutdown, accept failure, fcntl failure) happens before any change_state
call; only after a successful accept and mode switch does the driver set
CONNECTED, run the communication loop, and set DISCONNECTED. -/
def run_server_transitions (cycles : List ServerCycle) (acceptOk fcntlOk : Bool) :
    List VState :=
  match run_server_wait cycles with
  | WaitOut.connected _ =>
    if acceptOk then
      if fcntlOk then [VState.CONNECTED, VState.DISCONNECTED] else []
    else []
  | _ => []

/-- Modelled from the spec: §3 lifecycle — the channel state begins at
WAITING before the background thread starts (the constructor that initializes
the control block is not part of the given file). -/
def initial_state : VState := VState.WAITING

/-- Final value of the channel state after the server driver returns: the
last state stored by a change_state call, or the initial state if the driver
performed none. -/
def server_final_state (cycles : List ServerCycle) (acceptOk fcntlOk : Bool) : VState :=
  (run_server_transitions cycles acceptOk fcntlOk).getLast?.getD initial_state

/-- Observable result of change_state: the state value stored into the
control block, the number of peer-wake bytes written, whether a failed wake
write was logged, and the event trace. -/
structure ChangeStateRes where
  state : VState
  wakeWrites : Nat
  logged : Bool
  trace : List Ev
  deriving DecidableEq

/-- The change_state procedure, translated from src/vchan/socket.c lines
274-281: under the lock, store the new state, then write one byte to the
peer-wake pipe; if that write does not return 1 the failure is only logged
(perror) — the state store is neither prevented nor rolled back — and the
function unlocks and completes on every path. -/
def change_state (s : VState) (wakeRes : Int) : ChangeStateRes :=
  { state := s, wakeWrites := 1, logged := decide (wakeRes ≠ 1),
    trace := [Ev.lock, Ev.wakeWrite, Ev.unlock] }

/-- Sample ring: capacity 8, empty. -/
def ringE : Ring := { cap := 8, head := 0, used := 0 }

/-- Sample ring: capacity 8, 4 bytes used starting at index 0. -/
def ringH : Ring := { cap := 8, head := 0, used := 4 }

/-- Sample iteration environment: the socket is readable and writable, the
read transfers one byte and the write then fails with an unexpected errno. -/
def envReadThenWriteFatal : CommEnv :=
  { poll_fail := false, poll_errno := Errno.other, revents_in := true,
    revents_out := true, revents_user := false, readRes := SysRes.ok 1,
    writeRes := SysRes.err Errno.other, wakeRes := 1 }

/-- Sample iteration environment: nothing is ready and both io results would
report EAGAIN if consulted. -/
def envQuiet : CommEnv :=
  { poll_fail := false, poll_errno := Errno.EINTR, revents_in := false,
    revents_out := false, revents_user := false,
    readRes := SysRes.err Errno.EAGAIN, writeRes := SysRes.err Errno.EAGAIN,
    wakeRes := 1 }

/-- Sample iteration environment: the socket is readable, the read transfers
two bytes, and the peer-wake write succeeds. -/
def envReadProgress : CommEnv :=
  { poll_fail := false, poll_errno := Errno.other, revents_in := true,
    revents_out := false, revents_user := false, readRes := SysRes.ok 2,
    writeRes := SysRes.err Errno.EAGAIN, wakeRes := 1 }

/-- Sample iteration environment: the socket is readable and the read fails
with an unexpected errno. -/
def envReadFatal : CommEnv :=
  { poll_fail := false, poll_errno := Errno.other, revents_in := true,
    revents_out := false, revents_user := false,
    readRes := SysRes.err Errno.other, writeRes := SysRes.err Errno.EAGAIN,
    wakeRes := 1 }

/-- Sample iteration environment: both directions ready, the read transfers
three bytes, the write transfers two, the peer-wake write succeeds. -/
def envBothOk : CommEnv :=
  { poll_fail := false, poll_errno := Errno.other, revents_in := true,
    revents_out := true, revents_user := false, readRes := SysRes.ok 3,
    writeRes := SysRes.ok 2, wakeRes := 1 }

/-- Sample server poll cycle: poll succeeds, shutdown was requested, and a
client happens to be arriving in the same cycle. -/
def cycShutdown : ServerCycle :=
  { poll_fail := false, poll_errno := Errno.other, shutdown := true,
    revents_in := true }

/-- Sample server poll cycle: poll succeeds, shutdown was requested, no
client pending. -/
def cycShutdownQuiet : ServerCycle :=
  { poll_fail := false, poll_errno := Errno.EINTR, shutdown := true,
    revents_in := false }

/-- Helper: every trace produced by one comm_loop iteration is lock-balanced
(each unlock finds the mutex held and the iteration ends with it released). -/
theorem step_trace_balanced (rr wr : Ring) (sh : Bool) (env : CommEnv) :
    balancedFrom 0 (comm_loop_step rr wr sh env).trace = true := by
  simp only [comm_loop_step, comm_loop_step_write, comm_loop_step_finish]
  repeat' split
  all_goals rfl

/-- Helper: the blocking poll of a comm_loop iteration always happens with
the mutex released. -/
theorem step_poll_unlocked (rr wr : Ring) (sh : Bool) (env : CommEnv) :
    pollAtZeroFrom 0 (comm_loop_step rr wr sh env).trace = true := by
  simp only [comm_loop_step, comm_loop_step_write, comm_loop_step_finish]
  repeat' split
  all_goals rfl

/-- Helper: every return from a comm_loop iteration happens with the mutex
released. -/
theorem step_ret_unlocked (rr wr : Ring) (sh : Bool) (env : CommEnv) :
    retAtZeroFrom 0 (comm_loop_step rr wr sh env).trace = true := by
  simp only [comm_loop_step, comm_loop_step_write, comm_loop_step_finish]
  repeat' split
  all_goals rfl

/-- Helper: when the read dispatch advances the ring by `c` bytes, either
`c = 0` (a no-progress outcome) or the read call actually returned `c`. -/
theorem read_classify_adv (s : SysRes) (c : Nat) (d : Bool)
    (h : read_classify s = PhaseOut.advance c d) : c = 0 ∨ s = SysRes.ok c := by
  cases s with
  | ok m =>
    by_cases hm : m = 0
    · subst hm; simp [read_classify] at h; left; omega
    · right; simp [read_classify, hm] at h; simp [h.1]
  | err e =>
    left
    revert h
    simp only [read_classify]
    split
    · intro h; simp at h; omega
    · split
      · intro h; simp at h; omega
      · intro h; simp at h

/-- Helper: when the write dispatch advances the ring by `c` bytes, either
`c = 0` (a no-progress outcome) or the write call actually returned `c`. -/
theorem write_classify_adv (s : SysRes) (c : Nat) (d : Bool)
    (h : write_classify s = PhaseOut.advance c d) : c = 0 ∨ s = SysRes.ok c := by
  cases s with
  | ok m => right; simp [write_classify] at h; simp [h.1]
  | err e =>
    left
    revert h
    simp only [write_classify]
    split
    · intro h; simp at h; omega
    · split
      · intro h; simp at h; omega
      · intro h; simp at h

/-- Helper: comm_loop_step_finish returns its ring and bookkeeping arguments
unchanged; only done, fatal, wakeWrites and the trace depend on the wake
write. -/
theorem step_finish_pass (rr2 wr2 : Ring) (sh : Bool) (wk : Int)
    (eIn eOut dIO nf rc wc : Bool) (rq cm wq wcm : Nat) (tr : List Ev) :
    (comm_loop_step_finish rr2 wr2 sh wk eIn eOut dIO nf rc wc rq cm wq wcm tr).read_ring = rr2 ∧
    (comm_loop_step_finish rr2 wr2 sh wk eIn eOut dIO nf rc wc rq cm wq wcm tr).write_ring = wr2 ∧
    (comm_loop_step_finish rr2 wr2 sh wk eIn eOut dIO nf rc wc rq cm wq wcm tr).readCalled = rc ∧
    (comm_loop_step_finish rr2 wr2 sh wk eIn eOut dIO nf rc wc rq cm wq wcm tr).writeCalled = wc ∧
    (comm_loop_step_finish rr2 wr2 sh wk eIn eOut dIO nf rc wc rq cm wq wcm tr).readReq = rq ∧
    (comm_loop_step_finish rr2 wr2 sh wk eIn eOut dIO nf rc wc rq cm wq wcm tr).readCommit = cm ∧
    (comm_loop_step_finish rr2 wr2 sh wk eIn eOut dIO nf rc wc rq cm wq wcm tr).writeReq = wq ∧
    (comm_loop_step_finish rr2 wr2 sh wk eIn eOut dIO nf rc wc rq cm wq wcm tr).writeCommit = wcm ∧
    (comm_loop_step_finish rr2 wr2 sh wk eIn eOut dIO nf rc wc rq cm wq wcm tr).eventsIn = eIn ∧
    (comm_loop_step_finish rr2 wr2 sh wk eIn eOut dIO nf rc wc rq cm wq wcm tr).eventsOut = eOut ∧
    (comm_loop_step_finish rr2 wr2 sh wk eIn eOut dIO nf rc wc rq cm wq wcm tr).shutdownObserved = sh ∧
    (comm_loop_step_finish rr2 wr2 sh wk eIn eOut dIO nf rc wc rq cm wq wcm tr).doneFromDispatch = dIO ∧
    (comm_loop_step_finish rr2 wr2 sh wk eIn eOut dIO nf rc wc rq cm wq wcm tr).notify = nf := by
  simp only [comm_loop_step_finish]
  repeat' split
  all_goals simp

theorem step_write_side (rr2 wr : Ring) (sh : Bool) (env : CommEnv)
    (eIn eOut dR nR rc : Bool) (rq cm : Nat) (tr : List Ev)
    (hw : ∀ n, env.writeRes = SysRes.ok n → n ≤ ring_filled wr)
    (hwf : wr.head < wr.cap) :
    (comm_loop_step_write rr2 wr sh env eIn eOut dR nR rc rq cm tr).writeCommit ≤ ring_filled wr ∧
    ((comm_loop_step_write rr2 wr sh env eIn eOut dR nR rc rq cm tr).writeCalled = true →
      (comm_loop_step_write rr2 wr sh env eIn eOut dR nR rc rq cm tr).writeReq = ring_filled wr ∧
      0 < ring_filled wr) ∧
    ((comm_loop_step_write rr2 wr sh env eIn eOut dR nR rc rq cm tr).writeCalled = false →
      (comm_loop_step_write rr2 wr sh env eIn eOut dR nR rc rq cm tr).writeCommit = 0) ∧
    (comm_loop_step_write rr2 wr sh env eIn eOut dR nR rc rq cm tr).write_ring =
      ring_advance_head wr (comm_loop_step_write rr2 wr sh env eIn eOut dR nR rc rq cm tr).writeCommit ∧
    (∀ n, env.writeRes = SysRes.ok n →
      (comm_loop_step_write rr2 wr sh env eIn eOut dR nR rc rq cm tr).writeCalled = true →
      (comm_loop_step_write rr2 wr sh env eIn eOut dR nR rc rq cm tr).writeCommit = n) := by
  have hadv0 : ring_advance_head wr 0 = wr := by
    simp [ring_advance_head, Nat.mod_eq_of_lt hwf]
  simp only [comm_loop_step_write]
  split
  · rename_i hcond
    split
    · rename_i heq
      refine ⟨by simp, by simp_all, by simp, by simp [hadv0], ?_⟩
      intro n hn
      rw [hn] at heq
      simp [write_classify] at heq
    · rename_i c d heq
      have hpass := step_finish_pass rr2 (ring_advance_head wr c) sh env.wakeRes
        eIn eOut (dR || d) (nR || decide (0 < c)) rc true rq cm (ring_filled wr) c
        (tr ++ [Ev.writeCall (ring_filled wr)])
      have hcle : c ≤ ring_filled wr := by
        rcases write_classify_adv _ _ _ heq with h0 | hok
        · omega
        · exact hw _ hok
      refine ⟨?_, ?_, ?_, ?_, ?_⟩
      · rw [hpass.2.2.2.2.2.2.2.1]; exact hcle
      · intro _; rw [hpass.2.2.2.2.2.2.1]; simp_all
      · intro hfc; rw [hpass.2.2.2.1] at hfc; simp at hfc
      · rw [hpass.2.1, hpass.2.2.2.2.2.2.2.1]
      · intro n hn _
        rw [hn] at heq
        simp [write_classify] at heq
        rw [hpass.2.2.2.2.2.2.2.1]
        omega
  · rename_i hcond
    have hpass := step_finish_pass rr2 wr sh env.wakeRes eIn eOut dR nR rc false rq cm 0 0 tr
    refine ⟨?_, ?_, ?_, ?_, ?_⟩
    · rw [hpass.2.2.2.2.2.2.2.1]; exact Nat.zero_le _
    · intro hc; rw [hpass.2.2.2.1] at hc; simp at hc
    · intro _; rw [hpass.2.2.2.2.2.2.2.1]
    · rw [hpass.2.1, hpass.2.2.2.2.2.2.2.1, hadv0]
    · intro n hn hc; rw [hpass.2.2.2.1] at hc; simp at hc

/-- Helper: the write phase passes the read-side bookkeeping through
unchanged. -/
theorem step_write_pass (rr2 wr : Ring) (sh : Bool) (env : CommEnv)
    (eIn eOut dR nR rc : Bool) (rq cm : Nat) (tr : List Ev) :
    (comm_loop_step_write rr2 wr sh env eIn eOut dR nR rc rq cm tr).read_ring = rr2 ∧
    (comm_loop_step_write rr2 wr sh env eIn eOut dR nR rc rq cm tr).readCalled = rc ∧
    (comm_loop_step_write rr2 wr sh env eIn eOut dR nR rc rq cm tr).readReq = rq ∧
    (comm_loop_step_write rr2 wr sh env eIn eOut dR nR rc rq cm tr).readCommit = cm ∧
    (comm_loop_step_write rr2 wr sh env eIn eOut dR nR rc rq cm tr).eventsIn = eIn ∧
    (comm_loop_step_write rr2 wr sh env eIn eOut dR nR rc rq cm tr).eventsOut = eOut ∧
    (comm_loop_step_write rr2 wr sh env eIn eOut dR nR rc rq cm tr).shutdownObserved = sh := by
  simp only [comm_loop_step_write, comm_loop_step_finish]
  repeat' split
  all_goals simp

/-- Helper: read-side bookkeeping of one comm_loop iteration — the read is
issued only for a positive contiguous run, requests exactly that run, and the
committed count equals the bytes the call transferred, bounded by the run. -/
theorem step_read_side (rr wr : Ring) (sh : Bool) (env : CommEnv)
    (hr : ∀ n, env.readRes = SysRes.ok n → n ≤ ring_available rr) :
    (comm_loop_step rr wr sh env).readCommit ≤ ring_available rr ∧
    ((comm_loop_step rr wr sh env).readCalled = true →
      (comm_loop_step rr wr sh env).readReq = ring_available rr ∧
      0 < ring_available rr) ∧
    ((comm_loop_step rr wr sh env).readCalled = false →
      (comm_loop_step rr wr sh env).readCommit = 0) ∧
    (comm_loop_step rr wr sh env).read_ring =
      ring_advance_tail rr (comm_loop_step rr wr sh env).readCommit ∧
    (∀ n, env.readRes = SysRes.ok n →
      (comm_loop_step rr wr sh env).readCalled = true →
      (comm_loop_step rr wr sh env).readCommit = n) := by
  have hadv0 : ring_advance_tail rr 0 = rr := by
    simp [ring_advance_tail]
  simp only [comm_loop_step]
  split
  · exact ⟨Nat.zero_le _, by simp, by simp [hadv0], by simp [hadv0], by simp⟩
  · split
    · rename_i hcond
      split
      · rename_i heq
        refine ⟨by simp, by simp_all, by simp, by simp [hadv0], ?_⟩
        intro n hn
        rw [hn] at heq
        simp [read_classify] at heq
        revert heq
        split
        · intro h; exact absurd h (by simp)
        · intro h; exact absurd h (by simp)
      · rename_i c d heq
        have hpass := step_write_pass (ring_advance_tail rr c) wr sh env
          (decide (0 < ring_available rr)) (decide (0 < ring_filled wr)) d
          (decide (0 < c)) true (ring_available rr) c
          [Ev.lock, Ev.unlock, Ev.pollWait, Ev.lock, Ev.readCall (ring_available rr)]
        have hcle : c ≤ ring_available rr := by
          rcases read_classify_adv _ _ _ heq with h0 | hok
          · omega
          · exact hr _ hok
        refine ⟨?_, ?_, ?_, ?_, ?_⟩
        · rw [hpass.2.2.2.1]; exact hcle
        · intro _; rw [hpass.2.2.1]; simp_all
        · intro hfc; rw [hpass.2.1] at hfc; simp at hfc
        · rw [hpass.1, hpass.2.2.2.1]
        · intro n hn _
          rw [hn] at heq
          rw [hpass.2.2.2.1]
          revert heq
          simp only [read_classify]
          split
          · intro h; simp at h; omega
          · intro h; simp at h; omega
    · rename_i hcond
      have hpass := step_write_pass rr wr sh env
        (decide (0 < ring_available rr)) (decide (0 < ring_filled wr)) false false false 0 0
        [Ev.lock, Ev.unlock, Ev.pollWait, Ev.lock]
      refine ⟨?_, ?_, ?_, ?_, ?_⟩
      · rw [hpass.2.2.2.1]; exact Nat.zero_le _
      · intro hc; rw [hpass.2.1] at hc; simp at hc
      · intro _; rw [hpass.2.2.2.1]
      · rw [hpass.1, hpass.2.2.2.1, hadv0]
      · intro n hn hc; rw [hpass.2.1] at hc; simp at hc

/-- Helper: write-side bookkeeping of one comm_loop iteration — the write
requests exactly the contiguous filled run and commits exactly the bytes the
call transferred, bounded by the run. -/
theorem step_write_lifted (rr wr : Ring) (sh : Bool) (env : CommEnv)
    (hw : ∀ n, env.writeRes = SysRes.ok n → n ≤ ring_filled wr)
    (hwf : wr.head < wr.cap) :
    (comm_loop_step rr wr sh env).writeCommit ≤ ring_filled wr ∧
    ((comm_loop_step rr wr sh env).writeCalled = true →
      (comm_loop_step rr wr sh env).writeReq = ring_filled wr ∧ 0 < ring_filled wr) ∧
    ((comm_loop_step rr wr sh env).writeCalled = false →
      (comm_loop_step rr wr sh env).writeCommit = 0) ∧
    (comm_loop_step rr wr sh env).write_ring =
      ring_advance_head wr (comm_loop_step rr wr sh env).writeCommit ∧
    (∀ n, env.writeRes = SysRes.ok n →
      (comm_loop_step rr wr sh env).writeCalled = true →
      (comm_loop_step rr wr sh env).writeCommit = n) := by
  have hadv0 : ring_advance_head wr 0 = wr := by
    simp [ring_advance_head, Nat.mod_eq_of_lt hwf]
  simp only [comm_loop_step]
  split
  · exact ⟨Nat.zero_le _, by simp, by simp, by simp [hadv0], by simp⟩
  · split
    · split
      · exact ⟨Nat.zero_le _, by simp, by simp, by simp [hadv0], by simp⟩
      · exact step_write_side _ wr sh env _ _ _ _ _ _ _ _ hw hwf
    · exact step_write_side _ wr sh env _ _ _ _ _ _ _ _ hw hwf

/-- Helper: the poll interest bits of one comm_loop iteration are computed
from ring occupancy. -/
theorem step_events (rr wr : Ring) (sh : Bool) (env : CommEnv) :
    (comm_loop_step rr wr sh env).eventsIn = decide (0 < ring_available rr) ∧
    (comm_loop_step rr wr sh env).eventsOut = decide (0 < ring_filled wr) := by
  simp only [comm_loop_step, comm_loop_step_write, comm_loop_step_finish]
  repeat' split
  all_goals simp

/-- Helper: a fatal errno on the socket read makes the iteration return with
done not set and no peer-wake byte written. -/
theorem step_fatal_read (rr wr : Ring) (sh : Bool) (env : CommEnv)
    (h1 : env.revents_in = true) (h2 : 0 < ring_available rr)
    (h3 : read_classify env.readRes = PhaseOut.fatal) :
    (comm_loop_step rr wr sh env).fatal = true ∧
    (comm_loop_step rr wr sh env).done = false ∧
    (comm_loop_step rr wr sh env).wakeWrites = 0 := by
  simp only [comm_loop_step, comm_loop_step_write, comm_loop_step_finish]
  repeat' split
  all_goals simp_all

/-- Helper: a fatal errno on the socket write makes the iteration return with
done left exactly as the io dispatch set it and no peer-wake byte written. -/
theorem step_fatal_write (rr wr : Ring) (sh : Bool) (env : CommEnv)
    (h1 : env.revents_out = true) (h2 : 0 < ring_filled wr)
    (h3 : write_classify env.writeRes = PhaseOut.fatal) :
    (comm_loop_step rr wr sh env).fatal = true ∧
    (comm_loop_step rr wr sh env).done = (comm_loop_step rr wr sh env).doneFromDispatch ∧
    (comm_loop_step rr wr sh env).wakeWrites = 0 := by
  simp only [comm_loop_step, comm_loop_step_write, comm_loop_step_finish]
  repeat' split
  all_goals simp_all


/-- C1: the communication loop terminates through the shutdown path only when
the outbound ring is empty — in any iteration that the io dispatch did not
itself mark done, the loop ends up done only if shutdown was requested and
ring_filled of the outbound ring is 0 at that point. -/
theorem comm_loop_shutdown_drain :
    ∀ (rr wr : Ring) (sh : Bool) (env : CommEnv),
      (comm_loop_step rr wr sh env).fatal = false →
      (comm_loop_step rr wr sh env).done = true →
      (comm_loop_step rr wr sh env).doneFromDispatch = false →
      sh = true ∧ ring_filled (comm_loop_step rr wr sh env).write_ring = 0 := by
  intro rr wr sh env
  simp only [comm_loop_step, comm_loop_step_write, comm_loop_step_finish]
  repeat' split
  all_goals intro h1 h2 h3
  all_goals simp_all

/-- Witness for C1 at a concrete iteration: shutdown requested, outbound ring
empty, quiet socket. -/
theorem comm_loop_shutdown_drain_witness :
    ring_filled (comm_loop_step ringE ringE true envQuiet).write_ring = 0 :=
  (comm_loop_shutdown_drain ringE ringE true envQuiet
    (by decide) (by decide) (by decide)).2

/-- C4: the poll interest set of every comm_loop iteration is computed from
ring occupancy (readable interest iff the inbound ring has free space,
writable interest iff the outbound ring holds bytes), the computation happens
inside a lock window that closes before the blocking poll, and every poll in
the trace runs with the mutex released. -/
theorem comm_loop_poll_interest :
    ∀ (rr wr : Ring) (sh : Bool) (env : CommEnv),
      ((comm_loop_step rr wr sh env).eventsIn = true ↔ 0 < ring_available rr) ∧
      ((comm_loop_step rr wr sh env).eventsOut = true ↔ 0 < ring_filled wr) ∧
      (∃ rest, (comm_loop_step rr wr sh env).trace =
        Ev.lock :: Ev.unlock :: Ev.pollWait :: rest) ∧
      pollAtZeroFrom 0 (comm_loop_step rr wr sh env).trace = true := by
  intro rr wr sh env
  refine ⟨?_, ?_, ?_, step_poll_unlocked rr wr sh env⟩
  · rw [(step_events rr wr sh env).1]; simp
  · rw [(step_events rr wr sh env).2]; simp
  · simp only [comm_loop_step, comm_loop_step_write, comm_loop_step_finish]
    repeat' split
    all_goals exact ⟨_, rfl⟩

/-- C5: the delay between connect attempts is CONNECT_DELAY_MS * 1000 =
100000 nanoseconds with tv_sec = 0, i.e. 100 microseconds, not the
100 milliseconds the constant name suggests. -/
theorem connect_delay_is_100us :
    connect_delay_tv_nsec = 100000 ∧
    connect_delay_tv_sec = 0 ∧
    connect_delay_tv_nsec = 100 * 1000 ∧
    connect_delay_tv_nsec ≠ CONNECT_DELAY_MS * 1000000 := by
  decide

/-- C9: comm_loop never returns while holding the shared mutex — the event
trace of every iteration is lock-balanced (each unlock finds the mutex held
and the iteration ends with depth 0) and every return happens at depth 0. -/
theorem comm_loop_lock_discipline :
    ∀ (rr wr : Ring) (sh : Bool) (env : CommEnv),
      balancedFrom 0 (comm_loop_step rr wr sh env).trace = true ∧
      retAtZeroFrom 0 (comm_loop_step rr wr sh env).trace = true :=
  fun rr wr sh env =>
    ⟨step_trace_balanced rr wr sh env, step_ret_unlocked rr wr sh env⟩

/-- C10: change_state always stores the new state under the lock; a failed
wake write is only logged and neither prevents nor rolls back the store, and
the function completes (unlocking) on every path. -/
theorem change_state_always_stores :
    ∀ (s : VState) (w : Int),
      (change_state s w).state = s ∧
      (change_state s w).wakeWrites = 1 ∧
      (change_state s w).logged = decide (w ≠ 1) ∧
      (change_state s w).trace = [Ev.lock, Ev.wakeWrite, Ev.unlock] ∧
      balancedFrom 0 (change_state s w).trace = true ∧
      (change_state s w).state = (change_state s 1).state :=
  fun _ _ => ⟨rfl, rfl, rfl, rfl, rfl, rfl⟩

/-- Counterexample for C3: with shutdown requested in the first poll cycle
and no peer, run_server exits after one cycle without any state transition,
so the final state is WAITING, not the DISCONNECTED the claim asserts. -/
theorem run_server_shutdown_state_cex :
    run_server_wait [cycShutdown] = WaitOut.shutdownExit 1 ∧
    run_server_transitions [cycShutdown] true true = [] ∧
    server_final_state [cycShutdown] true true = VState.WAITING ∧
    server_final_state [cycShutdown] true true ≠ VState.DISCONNECTED := by
  decide

/-- C3 (amended): if shutdown is requested while the server driver is still
waiting for a peer, the driver exits within one poll cycle without the state
ever becoming CONNECTED; no state transition occurs on this path, so the
state remains WAITING (the code performs no DISCONNECTED transition here). -/
theorem run_server_shutdown_noconnect :
    ∀ (c : ServerCycle) (rest : List ServerCycle) (acceptOk fcntlOk : Bool),
      (c.poll_fail = true → c.poll_errno = Errno.EINTR) →
      c.shutdown = true →
      run_server_wait (c :: rest) = WaitOut.shutdownExit 1 ∧
      run_server_transitions (c :: rest) acceptOk fcntlOk = [] ∧
      VState.CONNECTED ∉ run_server_transitions (c :: rest) acceptOk fcntlOk ∧
      server_final_state (c :: rest) acceptOk fcntlOk = VState.WAITING := by
  intro c rest acceptOk fcntlOk hpoll hsh
  have hw : run_server_wait (c :: rest) = WaitOut.shutdownExit 1 := by
    simp only [run_server_wait]
    have : ¬(c.poll_fail = true ∧ c.poll_errno ≠ Errno.EINTR) := by
      intro hc
      exact hc.2 (hpoll hc.1)
    rw [if_neg this, if_pos hsh]
  refine ⟨hw, ?_, ?_, ?_⟩
  · simp [run_server_transitions, hw]
  · simp [run_server_transitions, hw]
  · simp [server_final_state, run_server_transitions, hw, initial_state]

/-- Witness for C3 (amended) at a concrete cycle list. -/
theorem run_server_shutdown_noconnect_witness :
    server_final_state [cycShutdownQuiet] true true = VState.WAITING :=
  (run_server_shutdown_noconnect cycShutdownQuiet [] true true
    (by decide) (by decide)).2.2.2

/-- C6: libvchan__connect retries (after the delay) exactly on ECONNREFUSED
or ENOENT, with no bound on the number of retries; any other connect errno
closes the descriptor and fails; a successful connect switches the
descriptor to non-blocking mode before returning it (and a failure of that
switch also closes the descriptor and fails). -/
theorem connect_retry_policy :
    (∀ (e : Errno) (rest : List ConnectStep),
      (e = Errno.ECONNREFUSED ∨ e = Errno.ENOENT) →
      libvchan__connect_loop (ConnectStep.fail e :: rest) =
        ((libvchan__connect_loop rest).1, (libvchan__connect_loop rest).2 + 1)) ∧
    (∀ (e : Errno) (rest : List ConnectStep),
      e ≠ Errno.ECONNREFUSED → e ≠ Errno.ENOENT →
      libvchan__connect_loop (ConnectStep.fail e :: rest) =
        (ConnectOut.setupError true, 0)) ∧
    (∀ n : Nat,
      libvchan__connect_loop
        (List.replicate n (ConnectStep.fail Errno.ECONNREFUSED) ++
          [ConnectStep.ok true]) = (ConnectOut.fd true, n)) ∧
    (∀ rest, libvchan__connect_loop (ConnectStep.ok true :: rest) =
      (ConnectOut.fd true, 0)) ∧
    (∀ rest, libvchan__connect_loop (ConnectStep.ok false :: rest) =
      (ConnectOut.setupError true, 0)) := by
  refine ⟨?_, ?_, ?_, fun rest => rfl, fun rest => rfl⟩
  · intro e rest he
    rcases he with rfl | rfl <;> simp [libvchan__connect_loop]
  · intro e rest h1 h2
    simp [libvchan__connect_loop, h1, h2]
  · intro n
    induction n with
    | zero => rfl
    | succ m ih =>
      simp only [List.replicate_succ, List.cons_append, libvchan__connect_loop]
      rw [if_neg (by simp)]
      simp [ih]

/-- Witness for C6: an unexpected errno fails immediately; three refusals
followed by a successful connect return a non-blocking descriptor after
three sleeps. -/
theorem connect_retry_policy_witness :
    libvchan__connect_loop [ConnectStep.fail Errno.other] =
      (ConnectOut.setupError true, 0) :=
  connect_retry_policy.2.1 Errno.other [] (by decide) (by decide)


/-- C2: classification of read/write results in each comm_loop iteration —
0 bytes read marks done; EAGAIN/EWOULDBLOCK on either call is 0 bytes and
the loop continues; ECONNRESET on read and EPIPE on write are 0 bytes and
mark done; any other errno on read or write makes the loop return
immediately (without the read-fatal path setting done, and without the
write-fatal path adding to what the io dispatch already set), after
releasing the lock, with no peer-wake byte written. -/
theorem comm_loop_error_dispatch :
    read_classify (SysRes.ok 0) = PhaseOut.advance 0 true ∧
    (∀ n : Nat, read_classify (SysRes.ok (n + 1)) = PhaseOut.advance (n + 1) false) ∧
    (∀ e, (e = Errno.EAGAIN ∨ e = Errno.EWOULDBLOCK) →
      read_classify (SysRes.err e) = PhaseOut.advance 0 false ∧
      write_classify (SysRes.err e) = PhaseOut.advance 0 false) ∧
    read_classify (SysRes.err Errno.ECONNRESET) = PhaseOut.advance 0 true ∧
    write_classify (SysRes.err Errno.EPIPE) = PhaseOut.advance 0 true ∧
    (∀ n : Nat, write_classify (SysRes.ok n) = PhaseOut.advance n false) ∧
    (∀ e, e ≠ Errno.EAGAIN → e ≠ Errno.EWOULDBLOCK → e ≠ Errno.ECONNRESET →
      read_classify (SysRes.err e) = PhaseOut.fatal) ∧
    (∀ e, e ≠ Errno.EAGAIN → e ≠ Errno.EWOULDBLOCK → e ≠ Errno.EPIPE →
      write_classify (SysRes.err e) = PhaseOut.fatal) ∧
    (∀ (rr wr : Ring) (sh : Bool) (env : CommEnv),
      env.revents_in = true → 0 < ring_available rr →
      read_classify env.readRes = PhaseOut.fatal →
      (comm_loop_step rr wr sh env).fatal = true ∧
      (comm_loop_step rr wr sh env).done = false ∧
      (comm_loop_step rr wr sh env).wakeWrites = 0 ∧
      retAtZeroFrom 0 (comm_loop_step rr wr sh env).trace = true) ∧
    (∀ (rr wr : Ring) (sh : Bool) (env : CommEnv),
      env.revents_out = true → 0 < ring_filled wr →
      write_classify env.writeRes = PhaseOut.fatal →
      (comm_loop_step rr wr sh env).fatal = true ∧
      (comm_loop_step rr wr sh env).done = (comm_loop_step rr wr sh env).doneFromDispatch ∧
      (comm_loop_step rr wr sh env).wakeWrites = 0 ∧
      retAtZeroFrom 0 (comm_loop_step rr wr sh env).trace = true) := by
  refine ⟨rfl, fun n => by simp [read_classify], ?_, rfl, rfl,
    fun n => rfl, ?_, ?_, ?_, ?_⟩
  · intro e he
    rcases he with rfl | rfl <;> exact ⟨rfl, rfl⟩
  · intro e h1 h2 h3
    simp [read_classify, h1, h2, h3]
  · intro e h1 h2 h3
    simp [write_classify, h1, h2, h3]
  · intro rr wr sh env h1 h2 h3
    have hf := step_fatal_read rr wr sh env h1 h2 h3
    exact ⟨hf.1, hf.2.1, hf.2.2, step_ret_unlocked rr wr sh env⟩
  · intro rr wr sh env h1 h2 h3
    have hf := step_fatal_write rr wr sh env h1 h2 h3
    exact ⟨hf.1, hf.2.1, hf.2.2, step_ret_unlocked rr wr sh env⟩

/-- Witness for C2: a read failing with an unexpected errno on a concrete
iteration returns fatally with done not set. -/
theorem comm_loop_error_dispatch_witness :
    (comm_loop_step ringE ringH false envReadFatal).fatal = true ∧
    (comm_loop_step ringE ringH false envReadFatal).done = false ∧
    (comm_loop_step ringE ringH false envReadFatal).wakeWrites = 0 ∧
    retAtZeroFrom 0 (comm_loop_step ringE ringH false envReadFatal).trace = true :=
  comm_loop_error_dispatch.2.2.2.2.2.2.2.2.1 ringE ringH false envReadFatal
    (by decide) (by decide) (by decide)

/-- Counterexample for C7: on a concrete iteration the socket read transfers
one byte (a positive transfer) but the subsequent write fails with an
unexpected errno, so the loop returns before the notify step and no
peer-wake byte is written — refuting the claim that a wake byte is written
if and only if a positive transfer occurred in the iteration. -/
theorem comm_loop_wake_iff_cex :
    0 < (comm_loop_step ringE ringH false envReadThenWriteFatal).readCommit ∧
    (comm_loop_step ringE ringH false envReadThenWriteFatal).wakeWrites = 0 := by
  decide

/-- C7 (amended): in any single comm_loop iteration at most one byte is
written to the peer-wake pipe; in an iteration that does not return fatally,
one byte is written if and only if the read or the write transferred a
positive number of bytes; and if the attempted wake write does not return 1
the loop returns immediately, leaving done exactly as the io dispatch set
it. -/
theorem comm_loop_wake_coalescing :
    ∀ (rr wr : Ring) (sh : Bool) (env : CommEnv),
      (comm_loop_step rr wr sh env).wakeWrites ≤ 1 ∧
      ((comm_loop_step rr wr sh env).fatal = false →
        ((comm_loop_step rr wr sh env).wakeWrites = 1 ↔
          (0 < (comm_loop_step rr wr sh env).readCommit ∨
           0 < (comm_loop_step rr wr sh env).writeCommit))) ∧
      ((comm_loop_step rr wr sh env).wakeWrites = 1 → env.wakeRes ≠ 1 →
        (comm_loop_step rr wr sh env).fatal = true ∧
        (comm_loop_step rr wr sh env).done = (comm_loop_step rr wr sh env).doneFromDispatch) := by
  intro rr wr sh env
  simp only [comm_loop_step, comm_loop_step_write, comm_loop_step_finish]
  repeat' split
  all_goals refine ⟨?_, ?_, ?_⟩
  all_goals simp_all

/-- Witness for C7 (amended): a concrete iteration whose read transfers two
bytes writes exactly one peer-wake byte. -/
theorem comm_loop_wake_coalescing_witness :
    (comm_loop_step ringE ringH false envReadProgress).wakeWrites = 1 :=
  ((comm_loop_wake_coalescing ringE ringH false envReadProgress).2.1
    (by decide)).mpr (Or.inl (by decide))

/-- C8: every socket io call of a comm_loop iteration is bounded by the
contiguous run of its ring — the queries never report past the wrap
boundary, a read is issued only for a positive free run and requests exactly
it, a write requests exactly the filled run, and the cursor advances commit
exactly the transferred byte count (0 on no-progress outcomes), never more
than the run requested. -/
theorem comm_loop_contiguous_io :
    ∀ (rr wr : Ring) (sh : Bool) (env : CommEnv),
      (∀ n, env.readRes = SysRes.ok n → n ≤ ring_available rr) →
      (∀ n, env.writeRes = SysRes.ok n → n ≤ ring_filled wr) →
      wr.head < wr.cap →
      (ring_filled rr ≤ rr.cap - rr.head ∧
       ring_available rr ≤ rr.cap - ring_tail_idx rr ∧
       ring_filled wr ≤ wr.cap - wr.head ∧
       ring_available wr ≤ wr.cap - ring_tail_idx wr) ∧
      ((comm_loop_step rr wr sh env).readCalled = true →
        (comm_loop_step rr wr sh env).readReq = ring_available rr ∧
        0 < ring_available rr) ∧
      ((comm_loop_step rr wr sh env).writeCalled = true →
        (comm_loop_step rr wr sh env).writeReq = ring_filled wr ∧
        0 < ring_filled wr) ∧
      (comm_loop_step rr wr sh env).readCommit ≤ ring_available rr ∧
      (comm_loop_step rr wr sh env).writeCommit ≤ ring_filled wr ∧
      (comm_loop_step rr wr sh env).read_ring =
        ring_advance_tail rr (comm_loop_step rr wr sh env).readCommit ∧
      (comm_loop_step rr wr sh env).write_ring =
        ring_advance_head wr (comm_loop_step rr wr sh env).writeCommit ∧
      (∀ n, env.readRes = SysRes.ok n →
        (comm_loop_step rr wr sh env).readCalled = true →
        (comm_loop_step rr wr sh env).readCommit = n) ∧
      (∀ n, env.writeRes = SysRes.ok n →
        (comm_loop_step rr wr sh env).writeCalled = true →
        (comm_loop_step rr wr sh env).writeCommit = n) ∧
      ((comm_loop_step rr wr sh env).readCalled = false →
        (comm_loop_step rr wr sh env).readCommit = 0) ∧
      ((comm_loop_step rr wr sh env).writeCalled = false →
        (comm_loop_step rr wr sh env).writeCommit = 0) := by
  intro rr wr sh env hr hw hwf
  have hrs := step_read_side rr wr sh env hr
  have hws := step_write_lifted rr wr sh env hw hwf
  exact ⟨⟨Nat.min_le_right _ _, Nat.min_le_right _ _,
          Nat.min_le_right _ _, Nat.min_le_right _ _⟩,
    hrs.2.1, hws.2.1, hrs.1, hws.1, hrs.2.2.2.1, hws.2.2.2.1,
    fun n hn hc => hrs.2.2.2.2 n hn hc,
    fun n hn hc => hws.2.2.2.2 n hn hc,
    hrs.2.2.1, hws.2.2.1⟩

/-- Witness for C8 at a concrete iteration with both directions making
progress. -/
theorem comm_loop_contiguous_io_witness :
    (comm_loop_step ringE ringH false envBothOk).readCommit ≤ ring_available ringE :=
  (comm_loop_contiguous_io ringE ringH false envBothOk
    (by intro n hn; simp [envBothOk] at hn; subst hn; decide)
    (by intro n hn; simp [envBothOk] at hn; subst hn; decide)
    (by decide)).2.2.2.1

end VchanSocket
